import Mathlib

/-!
Thread primitives of `utils/uds/threadsLinuxUser.c`.

A shallow embedding of the user-space thread layer of UDS: the CPU topology
queries, the process-wide thread start hook, the thread bootstrap
(`threadStarter`), `createThread` and `enterBarrier`.

Native facilities (libc, the kernel, the allocator, the logger) are not part of
the file.  Their outcomes enter the embedded functions as explicit arguments,
and the calls the code makes to them are recorded, in program order, as
`Event`s.  Pointers are natural numbers with `NULL = 0`; C `int` values are
integers, and the conversions between `long`, `int` and `unsigned int` are
written out with explicit wrap-around.
-/

namespace Uds

/-! ## Values and events -/

/-- A C pointer, as an address. -/
abbrev Ptr := Nat

/-- The null pointer. -/
def NULL : Ptr := 0

/-- Modelled from the spec: the status code `UDS_SUCCESS` of `uds.h`, which is
not part of this file.  It is the zero status: the source tests native results
against `0` and against `UDS_SUCCESS` interchangeably (`createThread`,
`enterBarrier`). -/
def UDS_SUCCESS : Int := 0

/-- The three fields of `ThreadStartInfo`. -/
inductive Field where
  | threadFunc
  | threadData
  | name
deriving DecidableEq, Repr

/-- The `prctl` options used by this file. -/
inductive PrctlOption where
  | PR_GET_NAME
  | PR_SET_NAME
deriving DecidableEq, Repr

/-- Calls into native facilities and memory accesses to a start context, in the
order the code performs them. -/
inductive Event where
  /-- A read of field `f` of the start context at `p`. -/
  | load (p : Ptr) (f : Field)
  /-- A write of `v` to field `f` of the start context at `p`. -/
  | store (p : Ptr) (f : Field) (v : Ptr)
  /-- The call `FREE(p)` on a non-null pointer. -/
  | free (p : Ptr)
  /-- The call `processControl(option, arg2, 0, 0, 0)`. -/
  | processControl (option : PrctlOption) (arg2 : Ptr)
  /-- The call `(*threadStartHook)()` of the function at `hook`. -/
  | callStartHook (hook : Ptr)
  /-- The call `threadFunc(threadData)`. -/
  | callThreadFunc (threadFunc : Ptr) (threadData : Ptr)
  /-- The call `pthread_attr_init(&attr)`. -/
  | attrInit
  /-- The call `pthread_attr_destroy(&attr)`. -/
  | attrDestroy
  /-- The call `pthread_create(newThread, &attr, threadStarter, arg)`. -/
  | pthreadCreate (arg : Ptr)
  /-- The call `logErrorWithStringError(code, "could not create %s thread", name)`. -/
  | logError (code : Int) (name : Ptr)
  /-- A call of `logWarningWithStringError(code, ...)`. -/
  | logWarning (code : Int)
  /-- The diagnostic of a failed `ASSERT_WITH_ERROR_CODE(expr, code, ...)`. -/
  | assertionFailed (code : Int)
deriving DecidableEq, Repr

/-- Modelled from the spec: the macro `ASSERT_WITH_ERROR_CODE(expr, code, ...)`
of `permassert.h`, which is not part of this file.  It yields `UDS_SUCCESS`
when the asserted expression holds; otherwise it emits the assertion
diagnostic and surfaces the supplied error code. -/
def ASSERT_WITH_ERROR_CODE (expr : Bool) (code : Int) : Int × List Event :=
  if expr then (UDS_SUCCESS, []) else (code, [Event.assertionFailed code])

/-- Conversion of an integer value to C `int` (32 bits, two's complement). -/
def toInt (x : Int) : Int := (x + 2 ^ 31) % 2 ^ 32 - 2 ^ 31

/-- Conversion of an integer value to C `unsigned int` (32 bits). -/
def toUnsigned (x : Int) : Nat := (x % 2 ^ 32).toNat

/-! ## CPU topology queries -/

/-- The function `schedGetAffinity`: `ret` is what the native
`sched_getaffinity` returned and `errno` the thread's error number after it. -/
def schedGetAffinity (ret errno : Int) : Int × List Event :=
  ASSERT_WITH_ERROR_CODE (ret == 0) errno

/-- The libc macro `CPU_ISSET(i, &cpuSet)`: `1` when bit `i` of the mask is
set, `0` otherwise.  A mask is its membership function. -/
def CPU_ISSET (i : Nat) (cpuSet : Nat → Bool) : Nat :=
  if cpuSet i then 1 else 0

/-- The function `getNumCores`.  `CPU_SETSIZE` is the libc constant bounding
the mask, `ret` and `errno` are the outcome of the native affinity query and
`cpuSet` the mask it filled in.  The loop over `unsigned int i` is a fold over
`0, ..., CPU_SETSIZE - 1`, and `nCpus` is accumulated in 32 bits. -/
def getNumCores (CPU_SETSIZE : Nat) (ret errno : Int) (cpuSet : Nat → Bool) :
    Nat × List Event :=
  let r := schedGetAffinity ret errno
  let result := r.1
  if result ≠ UDS_SUCCESS then
    (1, r.2 ++ [Event.logWarning result])
  else
    let nCpus := (List.range CPU_SETSIZE).foldl
      (fun nCpus i => (nCpus + CPU_ISSET i cpuSet) % 2 ^ 32) 0
    (nCpus, r.2)

/-- The function `countAllCores`: `sysconfValue` is the `long` returned by
`sysconf(_SC_NPROCESSORS_CONF)`, stored into `int result`. -/
def countAllCores (sysconfValue : Int) : Nat × List Event :=
  let result := toInt sysconfValue
  if result ≤ 0 then
    (2, [Event.logWarning result])
  else
    (toUnsigned result, [])

/-- The function `getScheduledCPU`.  `MurmurHash3_x86_32 key seed` stands for
the hash of `murmur/MurmurHash3.h` (not part of this file) applied to the
bytes of the thread identifier; its value is stored into a `uint32_t`.  `cpu`
is what `sched_getcpu()` returned, `errno` the error number after it,
`threadID` is `pthread_self()` and `sysconfValue` is what `countAllCores`
obtains from `sysconf`. -/
def getScheduledCPU (MurmurHash3_x86_32 : Nat → Nat → Nat) (cpu errno : Int)
    (threadID : Nat) (sysconfValue : Int) : Nat × List Event :=
  if cpu ≥ 0 then
    (toUnsigned cpu, [])
  else
    let result := ASSERT_WITH_ERROR_CODE (decide (cpu ≥ 0)) errno
    let hashCode := MurmurHash3_x86_32 threadID 0 % 2 ^ 32
    let cores := countAllCores sysconfValue
    (hashCode % cores.1, result.2 ++ cores.2)

/-! ## Barrier entry -/

/-- The function `enterBarrier`.  `PTHREAD_BARRIER_SERIAL_THREAD` is the libc
constant, `result` is what `pthread_barrier_wait` returned, and `winner` is the
out-parameter: `none` for a null pointer, `some b` for a pointer to a flag that
currently holds `b`.  The result is the returned status, the out-parameter
after the call and the diagnostics emitted. -/
def enterBarrier (PTHREAD_BARRIER_SERIAL_THREAD : Int) (result : Int)
    (winner : Option Bool) : Int × Option Bool × List Event :=
  if result = PTHREAD_BARRIER_SERIAL_THREAD then
    (UDS_SUCCESS, winner.map (fun _ => true), [])
  else
    let a := ASSERT_WITH_ERROR_CODE (result == 0) result
    (a.1, winner.map (fun _ => false), a.2)

/-! ## Process state: start contexts, the start hook, the error number -/

/-- The struct `ThreadStartInfo`. -/
structure ThreadStartInfo where
  threadFunc : Ptr
  threadData : Ptr
  name : Ptr
deriving DecidableEq, Repr

/-- Reads one field of a start context. -/
def ThreadStartInfo.get (c : ThreadStartInfo) : Field → Ptr
  | Field.threadFunc => c.threadFunc
  | Field.threadData => c.threadData
  | Field.name => c.name

/-- Overwrites one field of a start context. -/
def ThreadStartInfo.set (c : ThreadStartInfo) (v : Ptr) : Field → ThreadStartInfo
  | Field.threadFunc => { c with threadFunc := v }
  | Field.threadData => { c with threadData := v }
  | Field.name => { c with name := v }

/-- The live start contexts, newest first, keyed by address. -/
abbrev Heap := List (Ptr × ThreadStartInfo)

/-- The context stored at `p`, if `p` is live. -/
def heapLookup (p : Ptr) : Heap → Option ThreadStartInfo
  | [] => none
  | (q, c) :: rest => if q = p then some c else heapLookup p rest

/-- Replaces the context stored at `p`. -/
def heapStore (p : Ptr) (c : ThreadStartInfo) : Heap → Heap
  | [] => []
  | (q, d) :: rest => if q = p then (q, c) :: rest else (q, d) :: heapStore p c rest

/-- Releases the context stored at `p`. -/
def heapErase (p : Ptr) : Heap → Heap
  | [] => []
  | (q, d) :: rest => if q = p then rest else (q, d) :: heapErase p rest

/-- The state the functions of this file act on: the live start contexts, the
static variable `threadStartHook`, the calling thread's `errno`, and the
events performed so far. -/
structure World where
  heap : Heap
  threadStartHook : Ptr
  errno : Int
  trace : List Event
deriving DecidableEq, Repr

/-- The state at program start: `threadStartHook` is initialised to `NULL`. -/
def World.initial : World := ⟨[], NULL, 0, []⟩

/-- Appends one event to the trace. -/
def World.emit (w : World) (e : Event) : World :=
  { w with trace := w.trace ++ [e] }

/-- Appends events to the trace. -/
def World.emitAll (w : World) (es : List Event) : World :=
  { w with trace := w.trace ++ es }

/-- The start context a pointer refers to: nothing for `NULL` and for memory
that is not live. -/
def World.context (w : World) (p : Ptr) : Option ThreadStartInfo :=
  if p = NULL then none else heapLookup p w.heap

/-- The read `p->f`.  It has no defined result unless `p` is live. -/
def load (p : Ptr) (f : Field) (w : World) : Option (Ptr × World) :=
  match w.context p with
  | none => none
  | some c => some (c.get f, w.emit (Event.load p f))

/-- The assignment `p->f = v`.  It has no defined result unless `p` is live. -/
def store (p : Ptr) (f : Field) (v : Ptr) (w : World) : Option World :=
  match w.context p with
  | none => none
  | some c =>
    some { w with heap := heapStore p (c.set v f) w.heap,
                  trace := w.trace ++ [Event.store p f v] }

/-- Modelled from the spec: the macro `ALLOCATE(1, ThreadStartInfo, __func__, &tsi)`
of `memoryAlloc.h`, which is not part of this file.  `result` is the status
the allocator reports and `p` the address it hands out; on success a
zero-filled context at `p` becomes live, on failure nothing changes. -/
def ALLOCATE (result : Int) (p : Ptr) (w : World) : Int × World :=
  if result = UDS_SUCCESS then
    (result, { w with heap := (p, ⟨NULL, NULL, NULL⟩) :: w.heap })
  else
    (result, w)

/-- Modelled from the spec: the macro `FREE(p)` of `memoryAlloc.h`, which is
not part of this file.  Freeing `NULL` does nothing; freeing a live context
releases it; freeing anything else (a second free) has no defined result. -/
def FREE (p : Ptr) (w : World) : Option World :=
  if p = NULL then some w
  else
    match heapLookup p w.heap with
    | none => none
    | some _ =>
      some { w with heap := heapErase p w.heap, trace := w.trace ++ [Event.free p] }

/-- Modelled from the spec: the wrapper `processControl` of `syscalls.h`,
which is not part of this file.  It performs the `prctl` call and returns the
status `ret` the kernel gave. -/
def processControl (option : PrctlOption) (arg2 : Ptr) (ret : Int) (w : World) :
    Int × World :=
  (ret, w.emit (Event.processControl option arg2))

/-! ## The start hook -/

/-- The function `udsSetThreadStartHook`: the returned value and the state
after the call. -/
def udsSetThreadStartHook (hook : Ptr) (w : World) : Ptr × World :=
  let oldUdsThreadStartHook := w.threadStartHook
  (oldUdsThreadStartHook, { w with threadStartHook := hook })

/-! ## Thread bootstrap and creation -/

/-- The function `threadStarter`, run by the new thread on `arg`.
`prctlResult` is what the `PR_SET_NAME` request returns.  The hook and the
entry function are opaque callbacks: their calls are recorded as events. -/
def threadStarter (prctlResult : Int) (arg : Ptr) (w : World) : Option World :=
  let tsi := arg
  (load tsi Field.threadFunc w).bind fun r1 =>
  let threadFunc := r1.1
  (load tsi Field.threadData r1.2).bind fun r2 =>
  let threadData := r2.1
  (load tsi Field.name r2.2).bind fun r3 =>
  let w3 := (processControl PrctlOption.PR_SET_NAME r3.1 prctlResult r3.2).2
  (FREE tsi w3).bind fun w4 =>
  let w5 :=
    if w4.threadStartHook ≠ NULL then
      w4.emit (Event.callStartHook w4.threadStartHook)
    else w4
  some (w5.emit (Event.callThreadFunc threadFunc threadData))

/-- The function `initThreadAttr`: `ret` is what `pthread_attr_init` returned. -/
def initThreadAttr (ret : Int) (w : World) : Int × World :=
  let result := ret
  let a := ASSERT_WITH_ERROR_CODE (result == 0) result
  (a.1, (w.emit Event.attrInit).emitAll a.2)

/-- The function `destroyThreadAttr`: `ret` is what `pthread_attr_destroy`
returned. -/
def destroyThreadAttr (ret : Int) (w : World) : Int × World :=
  let result := ret
  let a := ASSERT_WITH_ERROR_CODE (result == 0) result
  (a.1, (w.emit Event.attrDestroy).emitAll a.2)

/-- What the native facilities answer during one call of `createThread`. -/
structure Native where
  /-- The status returned by `ALLOCATE`. -/
  allocate : Int
  /-- The address `ALLOCATE` stores into `tsi`. -/
  tsi : Ptr
  /-- The value returned by `pthread_attr_init`. -/
  attrInit : Int
  /-- The value returned by `pthread_create`; the `pthread_*` functions
  return their error number and leave `errno` alone. -/
  create : Int
  /-- The value returned by `pthread_attr_destroy`. -/
  attrDestroy : Int
deriving DecidableEq, Repr

/-- The function `createThread`, as run by the creating thread.
`UDS_ENOTHREADS` is the status code of `uds.h`.  The result is the returned
status and the state after the call; there is no result when the code touches
memory that is not live. -/
def createThread (UDS_ENOTHREADS : Int) (native : Native)
    (threadFunc threadData name : Ptr) (w : World) : Option (Int × World) :=
  let a := ALLOCATE native.allocate native.tsi w
  let tsi := native.tsi
  if a.1 ≠ UDS_SUCCESS then
    some (a.1, a.2)
  else
    (store tsi Field.threadFunc threadFunc a.2).bind fun w1 =>
    (store tsi Field.threadData threadData w1).bind fun w2 =>
    (store tsi Field.name name w2).bind fun w3 =>
    let i := initThreadAttr native.attrInit w3
    if i.1 ≠ UDS_SUCCESS then
      (FREE tsi i.2).bind fun w4 => some (UDS_ENOTHREADS, w4)
    else
      let w4 := i.2.emit (Event.pthreadCreate tsi)
      let result := native.create
      if result ≠ 0 then
        let w5 := w4.emit (Event.logError w4.errno name)
        let w6 := (destroyThreadAttr native.attrDestroy w5).2
        (FREE tsi w6).bind fun w7 => some (UDS_ENOTHREADS, w7)
      else
        let w5 := (destroyThreadAttr native.attrDestroy w4).2
        some (UDS_SUCCESS, w5)

/-- The events a call appended to the trace it started from. -/
def newEvents (before after : World) : List Event :=
  after.trace.drop before.trace.length

/-- No field of the context at `p` is read once `FREE(p)` has happened. -/
def noLoadAfterFree (p : Ptr) : List Event → Bool
  | [] => true
  | Event.free q :: rest =>
    if q = p then rest.all (fun e => !(match e with | Event.load r _ => decide (r = p) | _ => false))
    else noLoadAfterFree p rest
  | _ :: rest => noLoadAfterFree p rest

/-- The number of indices below `n` that are set in the mask. -/
def setBelow (n : Nat) (cpuSet : Nat → Bool) : Nat :=
  ((List.range n).filter (fun i => cpuSet i)).length

/-! ## Auxiliary facts -/

theorem toInt_of_range (x : Int) (hlo : -2 ^ 31 ≤ x) (hhi : x < 2 ^ 31) : toInt x = x := by
  unfold toInt
  omega

theorem toInt_bounds (x : Int) : -2 ^ 31 ≤ toInt x ∧ toInt x < 2 ^ 31 := by
  unfold toInt
  omega

theorem toUnsigned_of_nonneg (x : Int) (hlo : 0 ≤ x) (hhi : x < 2 ^ 31) :
    (toUnsigned x : Int) = x := by
  unfold toUnsigned
  omega

theorem countAllCores_pos (v : Int) : 0 < (countAllCores v).1 := by
  unfold countAllCores
  have hb := toInt_bounds v
  by_cases h : toInt v ≤ 0
  · simp [h]
  · have h2 := toUnsigned_of_nonneg (toInt v) (by omega) hb.2
    simp only [h, if_false]
    omega

theorem setBelow_le (n : Nat) (cpuSet : Nat → Bool) : setBelow n cpuSet ≤ n := by
  unfold setBelow
  calc ((List.range n).filter (fun i => cpuSet i)).length
      ≤ (List.range n).length := List.length_filter_le _ _
    _ = n := List.length_range n

theorem setBelow_succ (n : Nat) (cpuSet : Nat → Bool) :
    setBelow (n + 1) cpuSet = setBelow n cpuSet + CPU_ISSET n cpuSet := by
  unfold setBelow CPU_ISSET
  rw [List.range_succ, List.filter_append, List.length_append]
  by_cases h : cpuSet n <;> simp [h]

theorem countLoop_eq (cpuSet : Nat → Bool) (n : Nat) (hn : n < 2 ^ 32) :
    (List.range n).foldl (fun nCpus i => (nCpus + CPU_ISSET i cpuSet) % 2 ^ 32) 0
      = setBelow n cpuSet := by
  induction n with
  | zero => simp [setBelow]
  | succ k ih =>
    have hk : k < 2 ^ 32 := by omega
    rw [List.range_succ, List.foldl_append, ih hk, setBelow_succ]
    have h1 := setBelow_le k cpuSet
    have h2 : CPU_ISSET k cpuSet ≤ 1 := by
      unfold CPU_ISSET
      split <;> omega
    simp only [List.foldl_cons, List.foldl_nil]
    exact Nat.mod_eq_of_lt (by omega)

/-! ## The claims -/

/-- C4: for every native barrier-wait result `r` and every out-parameter,
`enterBarrier` leaves a null `winner` alone and writes to a non-null one
`true` exactly when `r` is the serial-thread signal and `false` otherwise; it
returns `UDS_SUCCESS` exactly when `r` is that signal or `0`, returns `r`
itself (a non-success code) for every other `r`, and its return value does
not depend on the out-parameter. -/
theorem enterBarrier_spec (PTHREAD_BARRIER_SERIAL_THREAD r : Int) (b : Bool)
    (winner : Option Bool) :
    (enterBarrier PTHREAD_BARRIER_SERIAL_THREAD r (some b)).2.1
        = some (decide (r = PTHREAD_BARRIER_SERIAL_THREAD)) ∧
    (enterBarrier PTHREAD_BARRIER_SERIAL_THREAD r none).2.1 = none ∧
    ((enterBarrier PTHREAD_BARRIER_SERIAL_THREAD r winner).1 = UDS_SUCCESS ↔
        (r = PTHREAD_BARRIER_SERIAL_THREAD ∨ r = 0)) ∧
    (enterBarrier PTHREAD_BARRIER_SERIAL_THREAD r winner).1
        = (if r = PTHREAD_BARRIER_SERIAL_THREAD ∨ r = 0 then UDS_SUCCESS else r) ∧
    (enterBarrier PTHREAD_BARRIER_SERIAL_THREAD r winner).1
        = (enterBarrier PTHREAD_BARRIER_SERIAL_THREAD r none).1 := by
  unfold enterBarrier ASSERT_WITH_ERROR_CODE UDS_SUCCESS
  by_cases h1 : r = PTHREAD_BARRIER_SERIAL_THREAD
  · simp [h1]
  · by_cases h2 : r = 0
    · subst h2
      simp [h1]
    · simp [h1, h2]

/-- C5: `udsSetThreadStartHook h` returns the hook that was installed and
leaves `h` installed, touching nothing else; calling it again with the value
it returned gives back `h` and restores the original state; and whatever was
set before, the hook installed last is the one in force. -/
theorem udsSetThreadStartHook_swap (h h2 : Ptr) (w : World) :
    (udsSetThreadStartHook h w).1 = w.threadStartHook ∧
    (udsSetThreadStartHook h w).2 = { w with threadStartHook := h } ∧
    (udsSetThreadStartHook (udsSetThreadStartHook h w).1 (udsSetThreadStartHook h w).2).1 = h ∧
    (udsSetThreadStartHook (udsSetThreadStartHook h w).1 (udsSetThreadStartHook h w).2).2 = w ∧
    (udsSetThreadStartHook h2 (udsSetThreadStartHook h w).2).2.threadStartHook = h2 ∧
    (udsSetThreadStartHook h2 (udsSetThreadStartHook h w).2).1 = h := by
  simp [udsSetThreadStartHook]

/-- C8: `countAllCores` always returns a positive count; and for every C `int`
value `r` of the system-configuration query it returns `2` when `r <= 0` and
`r` itself when `r > 0`. -/
theorem countAllCores_spec (r : Int) (hlo : -2 ^ 31 ≤ r) (hhi : r < 2 ^ 31) :
    ((countAllCores r).1 : Int) = (if r ≤ 0 then 2 else r) ∧
    0 < (countAllCores r).1 := by
  refine ⟨?_, countAllCores_pos r⟩
  unfold countAllCores
  rw [toInt_of_range r hlo hhi]
  by_cases h : r ≤ 0
  · simp [h]
  · simp only [h, if_false]
    exact toUnsigned_of_nonneg r (by omega) hhi

theorem countAllCores_spec_witness :
    (-2 ^ 31 ≤ (8 : Int) ∧ (8 : Int) < 2 ^ 31) ∧
    (((countAllCores 8).1 : Int) = (if (8 : Int) ≤ 0 then 2 else 8) ∧
      0 < (countAllCores 8).1) :=
  ⟨by decide, countAllCores_spec 8 (by decide) (by decide)⟩

/-- C7: when the affinity query fails (`schedGetAffinity` reports a
non-success status, as it does whenever `sched_getaffinity` returns non-zero
with a non-zero `errno`), `getNumCores` returns `1`; when the native query
succeeds with mask `cpuSet`, it returns exactly the number of indices below
`CPU_SETSIZE` that are set in the mask, which is at most `CPU_SETSIZE`. -/
theorem getNumCores_spec (CPU_SETSIZE : Nat) (ret errno : Int) (cpuSet : Nat → Bool)
    (hsize : CPU_SETSIZE < 2 ^ 32) :
    ((schedGetAffinity ret errno).1 ≠ UDS_SUCCESS →
        (getNumCores CPU_SETSIZE ret errno cpuSet).1 = 1) ∧
    (ret ≠ 0 → errno ≠ 0 → (getNumCores CPU_SETSIZE ret errno cpuSet).1 = 1) ∧
    (ret = 0 →
        (getNumCores CPU_SETSIZE ret errno cpuSet).1 = setBelow CPU_SETSIZE cpuSet ∧
        (getNumCores CPU_SETSIZE ret errno cpuSet).1 ≤ CPU_SETSIZE) := by
  refine ⟨?_, ?_, ?_⟩
  · intro hfail
    unfold getNumCores
    simp [hfail]
  · intro hret herrno
    unfold getNumCores schedGetAffinity ASSERT_WITH_ERROR_CODE UDS_SUCCESS
    simp [hret, herrno]
  · intro hret
    have hval : (getNumCores CPU_SETSIZE ret errno cpuSet).1 = setBelow CPU_SETSIZE cpuSet := by
      unfold getNumCores schedGetAffinity ASSERT_WITH_ERROR_CODE UDS_SUCCESS
      simp only [hret, beq_self_eq_true, if_true, ne_eq, not_true_eq_false, if_false]
      exact countLoop_eq cpuSet CPU_SETSIZE hsize
    exact ⟨hval, hval ▸ setBelow_le CPU_SETSIZE cpuSet⟩

theorem getNumCores_spec_witness :
    ((1024 : Nat) < 2 ^ 32) ∧
    (getNumCores 1024 (-1) 22 (fun i => decide (i < 4))).1 = 1 ∧
    (getNumCores 1024 0 0 (fun i => decide (i < 4))).1
        = setBelow 1024 (fun i => decide (i < 4)) ∧
    (getNumCores 1024 0 0 (fun i => decide (i < 4))).1 ≤ 1024 :=
  ⟨by decide,
   (getNumCores_spec 1024 (-1) 22 (fun i => decide (i < 4)) (by decide)).2.1
      (by decide) (by decide),
   (getNumCores_spec 1024 0 0 (fun i => decide (i < 4)) (by decide)).2.2 rfl⟩

/-- C6: when `sched_getcpu` returns a negative value, `getScheduledCPU`
returns the 32-bit hash of the thread identifier modulo `countAllCores()`;
that divisor is at least `1`, the result is strictly below it, and the result
is the same for every call with the same thread identifier and core count,
whatever the negative value and `errno` were; when the native query returns
an `int` value `cpu >= 0`, `getScheduledCPU` returns exactly `cpu`. -/
theorem getScheduledCPU_spec (MurmurHash3_x86_32 : Nat → Nat → Nat) (cpu errno : Int)
    (threadID : Nat) (sysconfValue : Int) :
    1 ≤ (countAllCores sysconfValue).1 ∧
    (cpu < 0 →
      (getScheduledCPU MurmurHash3_x86_32 cpu errno threadID sysconfValue).1
          = (MurmurHash3_x86_32 threadID 0 % 2 ^ 32) % (countAllCores sysconfValue).1 ∧
      (getScheduledCPU MurmurHash3_x86_32 cpu errno threadID sysconfValue).1
          < (countAllCores sysconfValue).1 ∧
      ∀ cpu2 errno2 : Int, cpu2 < 0 →
        (getScheduledCPU MurmurHash3_x86_32 cpu2 errno2 threadID sysconfValue).1
          = (getScheduledCPU MurmurHash3_x86_32 cpu errno threadID sysconfValue).1) ∧
    (0 ≤ cpu → cpu < 2 ^ 31 →
      ((getScheduledCPU MurmurHash3_x86_32 cpu errno threadID sysconfValue).1 : Int) = cpu) := by
  have hpos := countAllCores_pos sysconfValue
  have hneg : ∀ c e : Int, c < 0 →
      (getScheduledCPU MurmurHash3_x86_32 c e threadID sysconfValue).1
        = (MurmurHash3_x86_32 threadID 0 % 2 ^ 32) % (countAllCores sysconfValue).1 := by
    intro c e hc
    unfold getScheduledCPU
    have : ¬ c ≥ 0 := by omega
    simp [this]
  refine ⟨hpos, ?_, ?_⟩
  · intro hc
    refine ⟨hneg cpu errno hc, ?_, ?_⟩
    · rw [hneg cpu errno hc]
      exact Nat.mod_lt _ hpos
    · intro cpu2 errno2 hc2
      rw [hneg cpu2 errno2 hc2, hneg cpu errno hc]
  · intro h0 h1
    unfold getScheduledCPU
    have : cpu ≥ 0 := h0
    simp only [this, if_true]
    exact toUnsigned_of_nonneg cpu h0 h1

theorem getScheduledCPU_spec_witness :
    ((getScheduledCPU (fun k s => k * 7 + s) (-1) 38 1234567 8).1
        = ((fun k s => k * 7 + s) 1234567 0 % 2 ^ 32) % (countAllCores 8).1) ∧
    ((getScheduledCPU (fun k s => k * 7 + s) 3 0 1234567 8).1 : Int) = 3 :=
  ⟨((getScheduledCPU_spec (fun k s => k * 7 + s) (-1) 38 1234567 8).2.1 (by decide)).1,
   (getScheduledCPU_spec (fun k s => k * 7 + s) 3 0 1234567 8).2.2 (by decide) (by decide)⟩

/-- C1: for every live start context `{threadFunc, threadData, name}` and
every value of the start hook, `threadStarter` succeeds and performs exactly
this sequence: it reads the three fields, sets the advisory thread name to
`name` (whatever that request returns), frees the context, calls the start
hook once if and only if it is non-null, then calls `threadFunc` once with
`threadData`; the hook call precedes the entry call and no field of the
context is read after the context has been freed. -/
theorem threadStarter_effects (w : World) (tsi : Ptr) (ctx : ThreadStartInfo)
    (prctlResult : Int) (hlive : w.context tsi = some ctx) :
    threadStarter prctlResult tsi w =
      some { w with
        heap := heapErase tsi w.heap,
        trace := w.trace ++
          ([Event.load tsi Field.threadFunc, Event.load tsi Field.threadData,
            Event.load tsi Field.name,
            Event.processControl PrctlOption.PR_SET_NAME ctx.name,
            Event.free tsi] ++
           (if w.threadStartHook ≠ NULL then [Event.callStartHook w.threadStartHook] else []) ++
           [Event.callThreadFunc ctx.threadFunc ctx.threadData]) } ∧
    noLoadAfterFree tsi
      ([Event.load tsi Field.threadFunc, Event.load tsi Field.threadData,
        Event.load tsi Field.name,
        Event.processControl PrctlOption.PR_SET_NAME ctx.name,
        Event.free tsi] ++
       (if w.threadStartHook ≠ NULL then [Event.callStartHook w.threadStartHook] else []) ++
       [Event.callThreadFunc ctx.threadFunc ctx.threadData]) = true := by
  have hp : tsi ≠ NULL ∧ heapLookup tsi w.heap = some ctx := by
    unfold World.context at hlive
    by_cases h : tsi = NULL
    · simp [h] at hlive
    · simp [h] at hlive
      exact ⟨h, hlive⟩
  constructor
  · by_cases hh : w.threadStartHook = NULL <;>
      simp [threadStarter, load, processControl, FREE, World.emit, World.context,
        ThreadStartInfo.get, hp.1, hp.2, hh]
  · by_cases hh : w.threadStartHook = NULL <;>
      simp [noLoadAfterFree, hh]

theorem threadStarter_effects_witness :
    (World.mk [(5, ⟨100, 200, 300⟩)] 7 0 []).context 5 = some ⟨100, 200, 300⟩ ∧
    threadStarter 0 5 (World.mk [(5, ⟨100, 200, 300⟩)] 7 0 []) =
      some (World.mk [] 7 0
        [Event.load 5 Field.threadFunc, Event.load 5 Field.threadData,
         Event.load 5 Field.name,
         Event.processControl PrctlOption.PR_SET_NAME 300,
         Event.free 5, Event.callStartHook 7, Event.callThreadFunc 100 200]) :=
  ⟨by decide,
   (threadStarter_effects (World.mk [(5, ⟨100, 200, 300⟩)] 7 0 []) 5 ⟨100, 200, 300⟩ 0
      (by decide)).1.trans (by decide)⟩

/-- C2: when the start context was allocated (at a non-null address), then
`createThread` completes and: if `pthread_attr_init` fails (equivalently
`initThreadAttr` reports non-success) or `pthread_create` returns non-zero,
it returns `UDS_ENOTHREADS`, the context is no longer live (the heap is what
it was before the call) and `FREE` was called on it exactly once; if both
succeed it returns `UDS_SUCCESS`, the creator never frees the context, and
the context, holding the entry function, its argument and the name, is still
live and was handed to `pthread_create`. -/
theorem createThread_ownership (UDS_ENOTHREADS : Int) (native : Native)
    (threadFunc threadData name : Ptr) (w : World)
    (halloc : native.allocate = UDS_SUCCESS) (hptr : native.tsi ≠ NULL) :
    ∃ r w2, createThread UDS_ENOTHREADS native threadFunc threadData name w = some (r, w2) ∧
      (∀ w0, (initThreadAttr native.attrInit w0).1 ≠ UDS_SUCCESS ↔ native.attrInit ≠ 0) ∧
      (native.attrInit ≠ 0 ∨ native.create ≠ 0 →
        r = UDS_ENOTHREADS ∧ w2.heap = w.heap ∧
        (newEvents w w2).count (Event.free native.tsi) = 1) ∧
      (native.attrInit = 0 ∧ native.create = 0 →
        r = UDS_SUCCESS ∧
        w2.heap = (native.tsi, ⟨threadFunc, threadData, name⟩) :: w.heap ∧
        (newEvents w w2).count (Event.free native.tsi) = 0 ∧
        Event.pthreadCreate native.tsi ∈ newEvents w w2) := by
  have hiff : ∀ w0, (initThreadAttr native.attrInit w0).1 ≠ UDS_SUCCESS ↔ native.attrInit ≠ 0 := by
    intro w0
    unfold initThreadAttr ASSERT_WITH_ERROR_CODE UDS_SUCCESS
    by_cases h : native.attrInit = 0 <;> simp [h]
  by_cases hi : native.attrInit = 0
  · by_cases hc : native.create = 0
    · by_cases hd : native.attrDestroy = 0 <;>
      · simp [createThread, ALLOCATE, store, FREE, initThreadAttr, destroyThreadAttr,
          ASSERT_WITH_ERROR_CODE, World.context, World.emit, World.emitAll, heapLookup,
          heapStore, heapErase, ThreadStartInfo.set, newEvents, halloc, hptr, hi, hc, hd,
          UDS_SUCCESS]
        refine ⟨_, _, ⟨rfl, rfl⟩, ?_⟩
        simp [List.count_cons]
    · by_cases hd : native.attrDestroy = 0 <;>
      · simp [createThread, ALLOCATE, store, FREE, initThreadAttr, destroyThreadAttr,
          ASSERT_WITH_ERROR_CODE, World.context, World.emit, World.emitAll, heapLookup,
          heapStore, heapErase, ThreadStartInfo.set, newEvents, halloc, hptr, hi, hc, hd,
          UDS_SUCCESS]
        refine ⟨_, _, ⟨rfl, rfl⟩, ?_⟩
        simp [List.count_cons]
  · simp [createThread, ALLOCATE, store, FREE, initThreadAttr, destroyThreadAttr,
      ASSERT_WITH_ERROR_CODE, World.context, World.emit, World.emitAll, heapLookup,
      heapStore, heapErase, ThreadStartInfo.set, newEvents, halloc, hptr, hi,
      UDS_SUCCESS]
    refine ⟨_, _, ⟨rfl, rfl⟩, ?_⟩
    simp [List.count_cons]

theorem createThread_ownership_witness :
    (Native.mk 0 5 0 11 0).allocate = UDS_SUCCESS ∧ (Native.mk 0 5 0 11 0).tsi ≠ NULL ∧
    ∃ r w2, createThread 1027 (Native.mk 0 5 0 11 0) 100 200 300 World.initial = some (r, w2) ∧
      r = 1027 ∧ w2.heap = World.initial.heap ∧
      (newEvents World.initial w2).count (Event.free 5) = 1 :=
  ⟨by decide, by decide,
   match createThread_ownership 1027 (Native.mk 0 5 0 11 0) 100 200 300 World.initial
      (by decide) (by decide) with
   | ⟨r, w2, hrun, _, hfail, _⟩ => ⟨r, w2, hrun, hfail (Or.inr (by decide))⟩⟩

/-- C3 (as stated, refuted): with `UDS_ENOTHREADS = 1027`, an allocator that
fails with status `12` makes `createThread` return `12`, whereas a failing
`pthread_attr_init` makes it return `1027`; the two conditions differ. -/
theorem createThread_alloc_failure_counterexample :
    (createThread 1027 (Native.mk 12 0 0 0 0) 100 200 300 World.initial).map Prod.fst
        = some 12 ∧
    (createThread 1027 (Native.mk 0 5 22 0 0) 100 200 300 World.initial).map Prod.fst
        = some 1027 ∧
    (12 : Int) ≠ 1027 := by
  decide

/-- C3 (amended): when the start context cannot be allocated, `createThread`
returns the allocator's own status unchanged and does nothing else; the
caller sees `UDS_ENOTHREADS` in that case only if that is the very status the
allocator reported. -/
theorem createThread_alloc_failure (UDS_ENOTHREADS : Int) (native : Native)
    (threadFunc threadData name : Ptr) (w : World)
    (hfail : native.allocate ≠ UDS_SUCCESS) :
    createThread UDS_ENOTHREADS native threadFunc threadData name w
        = some (native.allocate, w) ∧
    ((createThread UDS_ENOTHREADS native threadFunc threadData name w).map Prod.fst
        = some UDS_ENOTHREADS ↔ native.allocate = UDS_ENOTHREADS) := by
  have hrun : createThread UDS_ENOTHREADS native threadFunc threadData name w
      = some (native.allocate, w) := by
    simp [createThread, ALLOCATE, hfail]
  refine ⟨hrun, ?_⟩
  rw [hrun]
  simp

theorem createThread_alloc_failure_witness :
    (Native.mk 12 0 0 0 0).allocate ≠ UDS_SUCCESS ∧
    createThread 1027 (Native.mk 12 0 0 0 0) 100 200 300 World.initial
        = some (12, World.initial) :=
  ⟨by decide,
   (createThread_alloc_failure 1027 (Native.mk 12 0 0 0 0) 100 200 300 World.initial
      (by decide)).1⟩

/-- On every spawn failure the code logged by `createThread` is the value of
`errno`, whatever `pthread_create` returned. -/
theorem createThread_spawn_failure_log (UDS_ENOTHREADS : Int) (native : Native)
    (threadFunc threadData name : Ptr) (w : World)
    (halloc : native.allocate = UDS_SUCCESS) (hptr : native.tsi ≠ NULL)
    (hattr : native.attrInit = 0) (hcreate : native.create ≠ 0) :
    ∃ w2, createThread UDS_ENOTHREADS native threadFunc threadData name w
        = some (UDS_ENOTHREADS, w2) ∧
      ∀ code n, Event.logError code n ∈ newEvents w w2 ↔ (code = w.errno ∧ n = name) := by
  by_cases hd : native.attrDestroy = 0 <;>
  · simp [createThread, ALLOCATE, store, FREE, initThreadAttr, destroyThreadAttr,
      ASSERT_WITH_ERROR_CODE, World.context, World.emit, World.emitAll, heapLookup,
      heapStore, heapErase, ThreadStartInfo.set, newEvents, halloc, hptr, hattr, hcreate,
      hd, UDS_SUCCESS]

/-- C10 (the code departs from it): `pthread_create` fails with error `11`
while the thread's `errno` still holds `2`; `createThread` returns
`UDS_ENOTHREADS` and the error it logs carries `2`, the stale `errno`, and
not the native error code `11`. -/
theorem createThread_logs_errno_not_spawn_code :
    (createThread 1027 (Native.mk 0 5 0 11 0) 100 200 300 (World.mk [] NULL 2 [])).map
        (fun r => (r.1, r.2.trace))
      = some (1027,
          [Event.store 5 Field.threadFunc 100, Event.store 5 Field.threadData 200,
           Event.store 5 Field.name 300, Event.attrInit, Event.pthreadCreate 5,
           Event.logError 2 300, Event.attrDestroy, Event.free 5]) := by
  decide

end Uds
